import Mathlib

/-!
Shallow embedding of the github-mcp-server core (protocol dispatcher plus
workflow engine) and proofs of the specification's testable properties.

The embedding follows `src/mcp/protocol.rs`, `src/mcp/handlers.rs` and
`src/github/workflows.rs`.  External collaborators (the git executable, the
GitHub HTTP client, the filesystem read of TODO.md, the process environment,
the JSON serializer and the clock) are modelled as an explicit environment
record `Env` whose fields give the outcome each external call would return.
Workflow functions additionally return the trace of external operations they
invoked, so that frame conditions ("no git mutation was performed") are
provable.
-/

/-- JSON values, standing in for `serde_json::Value`.  Objects keep their
fields as an association list. -/
inductive Json where
  | null
  | bool (b : Bool)
  | num (n : Int)
  | str (s : String)
  | arr (xs : List Json)
  | obj (fields : List (String × Json))

/-- Field lookup on a JSON value: `Value::get(key)` returns `None` on
non-objects and on missing keys. -/
def Json.get? : Json → String → Option Json
  | .obj fields, k => (fields.find? (fun p => p.1 = k)).map Prod.snd
  | _, _ => none

/-- The subset of `AppError` (src/error.rs) reachable from the core:
protocol, authentication, validation, internal and JSON-decoding errors. -/
inductive AppError where
  | mcpProtocol (msg : String)
  | authentication (msg : String)
  | validation (msg : String)
  | internal (msg : String)
  | json (msg : String)
  deriving DecidableEq

/-- Display form of `AppError`, from the thiserror `#[error(...)]` attributes
in src/error.rs (used by the websocket loop via `e.to_string()`). -/
def AppError.toString : AppError → String
  | .mcpProtocol m => "MCP protocol error: " ++ m
  | .authentication m => "Authentication error: " ++ m
  | .validation m => "Validation error: " ++ m
  | .internal m => "Internal server error: " ++ m
  | .json m => "JSON serialization error: " ++ m

/-- `McpRequest` from src/mcp/protocol.rs: jsonrpc marker, optional
correlation id, method name, optional params. -/
structure McpRequest where
  jsonrpc : String
  id : Option Json
  method : String
  params : Option Json

/-- `McpError` from src/mcp/protocol.rs. -/
structure McpError where
  code : Int
  message : String
  data : Option Json

/-- `McpResponse` from src/mcp/protocol.rs: optional result and optional
error (each skipped on serialization when absent). -/
structure McpResponse where
  jsonrpc : String
  id : Option Json
  result : Option Json
  error : Option McpError

/-- `McpResponse::success` (src/mcp/protocol.rs lines 78-85). -/
def McpResponse.success (id : Option Json) (result : Json) : McpResponse :=
  { jsonrpc := "2.0", id := id, result := some result, error := none }

/-- `McpResponse::error` (src/mcp/protocol.rs lines 87-94). -/
def McpResponse.mkError (id : Option Json) (code : Int) (message : String)
    (data : Option Json) : McpResponse :=
  { jsonrpc := "2.0", id := id, result := none,
    error := some { code := code, message := message, data := data } }

/- Error code registry from src/mcp/protocol.rs `error_codes`. -/
namespace error_codes

def PARSE_ERROR : Int := -32700
def INVALID_REQUEST : Int := -32600
def METHOD_NOT_FOUND : Int := -32601
def INVALID_PARAMS : Int := -32602
def INTERNAL_ERROR : Int := -32603
def GITHUB_API_ERROR : Int := -32000
def AUTHENTICATION_ERROR : Int := -32001
def RATE_LIMIT_ERROR : Int := -32002
def WORKFLOW_ERROR : Int := -32003

end error_codes

/- Method name registry from src/mcp/protocol.rs `methods`.  The constant
for the "initialize" method is called `INIT` here (the source gives it the
upper-cased method name itself; that spelling is avoided as an identifier in
this file). -/
namespace methods

def INIT : String := "initialize"
def TOOLS_LIST : String := "tools/list"
def TOOLS_CALL : String := "tools/call"
def RESOURCES_LIST : String := "resources/list"
def RESOURCES_READ : String := "resources/read"
def GITHUB_PUSH : String := "github/push"
def GITHUB_SCAN_TASKS : String := "github/scan-tasks"
def GITHUB_MERGE : String := "github/merge"

end methods

/-- MCP protocol version constant from src/mcp/protocol.rs. -/
def MCP_VERSION : String := "2024-11-05"

/-- `GitHubCommand` from src/mcp/protocol.rs: the closed set of workflow
command variants. -/
inductive GitHubCommand where
  | Push (branch : Option String) (message : Option String)
      (ready_for_review : Option Bool)
  | ScanTasks (project_number : Option String) (filter_type : Option String)
      (status : Option String)
  | Merge (branch : Option String) (delete_branch : Option Bool)
      (cleanup_work_folder : Option Bool)

/-- The fields of `GitHubPullRequest` (src/github/api.rs) consumed by the
workflow engine: number, title, draft flag, html url.  The remaining fields
of the source struct are never read by the core and are omitted. -/
structure GitHubPullRequest where
  number : Int
  title : String
  draft : Bool
  html_url : String

/-- External operations the workflow engine can invoke.  Mutating git
operations, plus the GitHub service calls; recorded in traces so frame
conditions are provable. -/
inductive GitOp where
  | commit (msg : String)
  | push (branch : String)
  | checkout (branch : String)
  | pull (branch : String)
  | deleteBranch (branch : String)
  | ghGetClient
  | ghGetProjectItems (project : String)
  | ghGetPrForBranch (branch : String)
  deriving DecidableEq

/-- Environment of external outcomes: what each external call would return
if invoked.  Fields correspond to the git utility functions of
src/github/workflows.rs (lines 258-390), the GitHub client boundary of
src/github/api.rs, the TODO.md read, the process environment, the JSON
pretty-printer of serde and the clock. -/
structure Env where
  /-- outcome of `get_current_branch()` -/
  currentBranch : Except AppError String
  /-- outcome of `get_main_branch()` (its internal non-zero-exit fallback to
  "main" already applied; an error means the process spawn itself failed) -/
  mainBranch : Except AppError String
  /-- outcome of `get_git_status()` at the point the workflow queries it -/
  gitStatus : Except AppError (List String)
  /-- outcome of `commit_changes(message)` -/
  commitResult : String → Except AppError Unit
  /-- outcome of `push_branch(branch)` -/
  pushResult : String → Except AppError Unit
  /-- outcome of `checkout_branch(branch)` -/
  checkoutResult : String → Except AppError Unit
  /-- outcome of `pull_branch(branch)` -/
  pullResult : String → Except AppError Unit
  /-- outcome of `delete_local_branch(branch)`; per source it errs only when
  the spawn fails, a non-zero git exit is logged and swallowed -/
  deleteResult : String → Except AppError Unit
  /-- outcome of `get_github_client(state, None)` -/
  githubClient : Except AppError Unit
  /-- outcome of `client.get_project_items(n)`: project items in their JSON
  form -/
  projectItems : String → Except AppError (List Json)
  /-- content of TODO.md, `none` when the read fails -/
  todoContent : Option String
  /-- value of the GITHUB_PROJECT_NUMBER environment variable -/
  envProjectNumber : Option String
  /-- `serde_json::to_string_pretty` on a value (external serializer) -/
  prettyPrint : Json → String
  /-- `chrono::Utc::now().to_rfc3339()` -/
  now : String

/-- Unwrap-or-default on `Except`, mirroring Rust's `unwrap_or_else` with a
constant fallback. -/
def exceptGetD (e : Except AppError String) (d : String) : String :=
  match e with
  | .ok s => s
  | .error _ => d

/-- Branch resolution used by Push and Merge (src/github/workflows.rs lines
70 and 192): the explicit argument, else the current branch, else the string
"main" when even the current-branch query fails. -/
def resolve_branch (env : Env) (branch : Option String) : String :=
  branch.getD (exceptGetD env.currentBranch "main")

/-- Main-branch resolution used by Push and Merge (src/github/workflows.rs
lines 71 and 193): `get_main_branch()` with fallback "main". -/
def resolve_main (env : Env) : String :=
  exceptGetD env.mainBranch "main"

/-- `get_pr_for_branch` from src/github/workflows.rs lines 423-427: the PR
lookup is an unimplemented stub that fails unconditionally. -/
def get_pr_for_branch (_client : Unit) (_branch : String) :
    Except AppError GitHubPullRequest :=
  .error (.internal "PR lookup not implemented yet")

/-- Character-list test: does `hay` start with `pat`? -/
def startsWithChars : List Char → List Char → Bool
  | _, [] => true
  | [], _ :: _ => false
  | h :: hs, p :: ps => (h = p) && startsWithChars hs ps

/-- Character-list substring test: does `pat` occur anywhere in `hay`? -/
def containsChars : List Char → List Char → Bool
  | [], pat => startsWithChars [] pat
  | h :: t, pat => startsWithChars (h :: t) pat || containsChars t pat

/-- Substring containment test, as Rust's `str::contains` with a literal
pattern. -/
def strContains (s pat : String) : Bool :=
  containsChars s.toList pat.toList

/-- Splitting a character list at whitespace (accumulator holds the current
word reversed); pieces come back in order, empties included. -/
def splitWsAux (cur : List Char) : List Char → List (List Char)
  | [] => [cur.reverse]
  | c :: rest =>
    if c.isWhitespace then cur.reverse :: splitWsAux [] rest
    else splitWsAux (c :: cur) rest

/-- Whitespace-separated words of a string, as Rust's
`str::split_whitespace` (runs of whitespace produce no empty words). -/
def splitWhitespace (s : String) : List String :=
  ((splitWsAux [] s.toList).map String.mk).filter (fun w => w ≠ "")

/-- `extract_number_from_line` from src/github/workflows.rs lines 413-421:
the first whitespace-separated word made only of ascii digits. -/
def extract_number_from_line (line : String) : Option String :=
  (splitWhitespace line).find?
    (fun w => w.toList.all Char.isDigit && w.length > 0)

/-- Splitting a character list at newlines (accumulator holds the current
line reversed). -/
def splitNlAux (cur : List Char) : List Char → List (List Char)
  | [] => [cur.reverse]
  | c :: rest =>
    if c = '\n' then cur.reverse :: splitNlAux [] rest
    else splitNlAux (c :: cur) rest

/-- Line splitting as Rust's `str::lines`: split on newline, one trailing
empty piece dropped, one trailing carriage return stripped per line. -/
def linesOf (content : String) : List String :=
  let pieces := (splitNlAux [] content.toList).map
    (fun l => String.mk (if l.getLast? = some '\r' then l.dropLast else l))
  if pieces.getLast? = some "" then pieces.dropLast else pieces

/-- The TODO.md scan loop inside `detect_project_number` (src lines
394-403): the first line containing a project-number marker from which a
number can be extracted. -/
def scanTodoLines : List String → Option String
  | [] => none
  | line :: rest =>
    if strContains line "Project Number:" || strContains line "GitHub Project:" then
      match extract_number_from_line line with
      | some n => some n
      | none => scanTodoLines rest
    else scanTodoLines rest

/-- Project number extracted from the tracking document, when the document
could be read and a marker line yields one. -/
def todoProjectNumber (env : Env) : Option String :=
  env.todoContent.bind (fun c => scanTodoLines (linesOf c))

/-- `detect_project_number` from src/github/workflows.rs lines 392-411:
TODO.md marker first, then the GITHUB_PROJECT_NUMBER environment variable,
else a validation error. -/
def detect_project_number (env : Env) : Except AppError String :=
  match todoProjectNumber env with
  | some n => .ok n
  | none =>
    match env.envProjectNumber with
    | some p => .ok p
    | none => .error (.validation
        "No GitHub Project number found. Please specify project_number or add it to TODO.md")

/-- `organize_tasks_by_priority` from src/github/workflows.rs lines 429-438:
fixed empty priority buckets plus the total count. -/
def organize_tasks_by_priority (tasks : List Json) : Json :=
  .obj [("critical", .arr []), ("high", .arr []), ("medium", .arr []),
        ("low", .arr []), ("total", .num tasks.length)]

/-- Warning payload returned by Push when already on the main branch
(src/github/workflows.rs lines 76-81). -/
def pushWarningPayload (main_branch current_branch : String) : Json :=
  .obj [("status", .str "warning"),
        ("message", .str ("⚠️ You\x27re on main branch (" ++ main_branch ++
          "). Are you sure you want to push?")),
        ("branch", .str current_branch),
        ("requires_confirmation", .bool true)]

/-- Error payload returned by Push when the tree is still dirty after the
optional commit (src/github/workflows.rs lines 93-97). -/
def pushDirtyPayload (git_status : List String) : Json :=
  .obj [("status", .str "error"),
        ("message", .str "⚠️ Uncommitted changes detected. Please commit or provide a commit message."),
        ("uncommitted_changes", .arr (git_status.map .str))]

/-- Success payload built by Push when an existing PR is found (src lines
109-126), including the conditional ready-for-review amendment. -/
def pushPrPayload (current_branch : String) (pr : GitHubPullRequest)
    (ready_for_review : Option Bool) : Json :=
  let prJson := fun extra =>
    Json.obj ([("number", Json.num pr.number), ("url", Json.str pr.html_url),
               ("title", Json.str pr.title), ("draft", Json.bool pr.draft)] ++ extra)
  if ready_for_review = some true ∧ pr.draft then
    .obj [("status", .str "success"),
          ("message", .str "🎉 Pushed and marked PR as ready for review!"),
          ("branch", .str current_branch),
          ("pull_request", prJson [("ready_for_review", Json.bool true)])]
  else
    .obj [("status", .str "success"),
          ("message", .str ("✅ Pushed to feature branch: " ++ current_branch)),
          ("branch", .str current_branch),
          ("pull_request", prJson [])]

/-- Success payload returned by Push when no PR is found (src lines
132-137). -/
def pushNoPrPayload (current_branch : String) : Json :=
  .obj [("status", .str "success"),
        ("message", .str ("✅ Pushed to feature branch: " ++ current_branch)),
        ("branch", .str current_branch),
        ("suggestion", .str "Consider creating a pull request for this branch")]

/-- Push workflow after branch resolution (`execute_push_workflow`,
src/github/workflows.rs lines 61-138), returning the result together with
the trace of external operations invoked. -/
def push_after_resolve (env : Env) (current_branch main_branch : String)
    (message : Option String) (ready_for_review : Option Bool) :
    Except AppError Json × List GitOp :=
  if current_branch = main_branch then
    (.ok (pushWarningPayload main_branch current_branch), [])
  else
    let commitStep : Except AppError Unit × List GitOp :=
      match message with
      | some m => (env.commitResult m, [.commit m])
      | none => (.ok (), [])
    match commitStep with
    | (.error e, tr) => (.error e, tr)
    | (.ok _, tr) =>
      match env.gitStatus with
      | .error e => (.error e, tr)
      | .ok git_status =>
        if git_status ≠ [] then
          (.ok (pushDirtyPayload git_status), tr)
        else
          match env.pushResult current_branch with
          | .error e => (.error e, tr ++ [.push current_branch])
          | .ok _ =>
            let tr := tr ++ [.push current_branch]
            match env.githubClient with
            | .ok _ =>
              let tr := tr ++ [.ghGetClient, .ghGetPrForBranch current_branch]
              match get_pr_for_branch () current_branch with
              | .ok pr =>
                (.ok (pushPrPayload current_branch pr ready_for_review), tr)
              | .error _ => (.ok (pushNoPrPayload current_branch), tr)
            | .error _ =>
              (.ok (pushNoPrPayload current_branch), tr ++ [.ghGetClient])

/-- `execute_push_workflow`: resolve branch and main-branch name, then run
the push state machine. -/
def execute_push_workflow (env : Env) (branch message : Option String)
    (ready_for_review : Option Bool) : Except AppError Json × List GitOp :=
  push_after_resolve env (resolve_branch env branch) (resolve_main env)
    message ready_for_review

/-- Success payload of ScanTasks (src/github/workflows.rs lines 172-178). -/
def scanTasksPayload (project_num : String) (tasks : List Json) : Json :=
  .obj [("status", .str "success"),
        ("project_number", .str project_num),
        ("tasks", organize_tasks_by_priority tasks),
        ("message", .str "📋 GitHub Project Tasks Available"),
        ("instructions", .str "Select a task number to start working on it")]

/-- `execute_scan_tasks_workflow` (src/github/workflows.rs lines 140-182):
resolve the project number (explicit argument first, else detection), then
fetch and organize the project items.  The declared type/status filters are
accepted but not applied (TODO in the source). -/
def execute_scan_tasks_workflow (env : Env)
    (project_number filter_type status : Option String) :
    Except AppError Json × List GitOp :=
  let resolved : Except AppError String :=
    match project_number with
    | some num => .ok num
    | none => detect_project_number env
  match resolved with
  | .error e => (.error e, [])
  | .ok project_num =>
    match env.githubClient with
    | .error _ =>
      (.error (.authentication "GitHub client not available"), [.ghGetClient])
    | .ok _ =>
      match env.projectItems project_num with
      | .error e => (.error e, [.ghGetClient, .ghGetProjectItems project_num])
      | .ok tasks =>
        let _ := filter_type
        let _ := status
        (.ok (scanTasksPayload project_num tasks),
         [.ghGetClient, .ghGetProjectItems project_num])

/-- Success payload of Merge (src/github/workflows.rs lines 239-251). -/
def mergeSuccessPayload (env : Env) (pr : GitHubPullRequest)
    (main_branch : String) (branch_deleted work_folder_cleaned : Bool) : Json :=
  .obj [("status", .str "success"),
        ("message", .str "🎉 Production deployment complete!"),
        ("merged_pr", .obj [("number", .num pr.number), ("url", .str pr.html_url),
                            ("title", .str pr.title)]),
        ("current_branch", .str main_branch),
        ("branch_deleted", .bool branch_deleted),
        ("work_folder_cleaned", .bool work_folder_cleaned),
        ("timestamp", .str env.now)]

/-- Merge workflow after branch resolution (`execute_merge_workflow`,
src/github/workflows.rs lines 184-255). -/
def merge_after_resolve (env : Env) (current_branch main_branch : String)
    (delete_branch cleanup_work_folder : Option Bool) :
    Except AppError Json × List GitOp :=
  if current_branch = main_branch then
    (.error (.validation "Already on main branch. Switch to feature branch first."), [])
  else
    match env.gitStatus with
    | .error e => (.error e, [])
    | .ok git_status =>
      let commitStep : Except AppError Unit × List GitOp :=
        if git_status ≠ [] then
          (env.commitResult ("Final changes for " ++ current_branch),
           [.commit ("Final changes for " ++ current_branch)])
        else (.ok (), [])
      match commitStep with
      | (.error e, tr) => (.error e, tr)
      | (.ok _, tr) =>
        match env.pushResult current_branch with
        | .error e => (.error e, tr ++ [.push current_branch])
        | .ok _ =>
          let tr := tr ++ [.push current_branch]
          match env.githubClient with
          | .error _ => (.error (.authentication "GitHub client not available"),
                         tr ++ [.ghGetClient])
          | .ok _ =>
            let tr := tr ++ [.ghGetClient, .ghGetPrForBranch current_branch]
            match get_pr_for_branch () current_branch with
            | .error e => (.error e, tr)
            | .ok pr =>
              match env.checkoutResult main_branch with
              | .error e => (.error e, tr ++ [.checkout main_branch])
              | .ok _ =>
                let tr := tr ++ [.checkout main_branch]
                match env.pullResult main_branch with
                | .error e => (.error e, tr ++ [.pull main_branch])
                | .ok _ =>
                  let tr := tr ++ [.pull main_branch]
                  let work_folder_cleaned := cleanup_work_folder.getD false
                  if delete_branch.getD true then
                    match env.deleteResult current_branch with
                    | .error e => (.error e, tr ++ [.deleteBranch current_branch])
                    | .ok _ =>
                      (.ok (mergeSuccessPayload env pr main_branch true
                              work_folder_cleaned),
                       tr ++ [.deleteBranch current_branch])
                  else
                    (.ok (mergeSuccessPayload env pr main_branch false
                            work_folder_cleaned), tr)

/-- `execute_merge_workflow`: resolve branch and main-branch name, then run
the merge state machine. -/
def execute_merge_workflow (env : Env) (branch : Option String)
    (delete_branch cleanup_work_folder : Option Bool) :
    Except AppError Json × List GitOp :=
  merge_after_resolve env (resolve_branch env branch) (resolve_main env)
    delete_branch cleanup_work_folder

/-- `execute_command` from src/github/workflows.rs lines 8-20: dispatch a
`GitHubCommand` to its workflow. -/
def execute_command (env : Env) : GitHubCommand → Except AppError Json × List GitOp
  | .Push branch message ready_for_review =>
    execute_push_workflow env branch message ready_for_review
  | .ScanTasks project_number filter_type status =>
    execute_scan_tasks_workflow env project_number filter_type status
  | .Merge branch delete_branch cleanup_work_folder =>
    execute_merge_workflow env branch delete_branch cleanup_work_folder

/-- `execute_workflow_command` from src/github/mod.rs lines 42-44 (the value
returned to the protocol layer; the trace is dropped there). -/
def execute_workflow_command (env : Env) (command : GitHubCommand) :
    Except AppError Json :=
  (execute_command env command).fst

/-- The serialized form of `ServerCapabilities::default()`
(src/mcp/protocol.rs lines 153-168). -/
def serverCapabilitiesJson : Json :=
  .obj [("tools", .obj [("listChanged", .bool true)]),
        ("resources", .obj [("subscribe", .bool false), ("listChanged", .bool true)]),
        ("logging", .obj [("level", .str "info")])]

/-- Modelled from the spec: the package version baked in at build time via
build metadata (the manifest is not among the source files); an opaque
string constant, never inspected by the core. -/
def cargo_pkg_version : String := "1.0.0"

/-- The handler for the "initialize" method (`handle_initialize`,
src/mcp/handlers.rs lines 97-108); the identifier is shortened here. -/
def handle_init (request : McpRequest) : Except AppError McpResponse :=
  .ok (McpResponse.success request.id
    (.obj [("protocolVersion", .str MCP_VERSION),
           ("capabilities", serverCapabilitiesJson),
           ("serverInfo", .obj [("name", .str "github-mcp-server"),
                                ("version", .str cargo_pkg_version)])]))

/-- The static tool list of `handle_tools_list` (src/mcp/handlers.rs lines
111-176), serialized (`inputSchema` rename applied). -/
def toolsListJson : Json :=
  .arr [
    .obj [("name", .str "github_push"),
          ("description", .str "Intelligent git push with PR management and workflow automation"),
          ("inputSchema", .obj [("type", .str "object"),
            ("properties", .obj [
              ("branch", .obj [("type", .str "string"),
                ("description", .str "Branch to push (defaults to current branch)")]),
              ("message", .obj [("type", .str "string"),
                ("description", .str "Optional commit message if changes need to be committed")]),
              ("ready_for_review", .obj [("type", .str "boolean"),
                ("description", .str "Mark PR as ready for review after push")])])])],
    .obj [("name", .str "github_scan_tasks"),
          ("description", .str "Scan GitHub Projects for tasks and present organized by type/priority"),
          ("inputSchema", .obj [("type", .str "object"),
            ("properties", .obj [
              ("project_number", .obj [("type", .str "string"),
                ("description", .str "GitHub Project number (optional, will auto-detect from TODO.md)")]),
              ("filter_type", .obj [("type", .str "string"),
                ("enum", .arr [.str "bug", .str "feature", .str "enhancement",
                  .str "documentation", .str "refactor", .str "test", .str "chore"]),
                ("description", .str "Filter tasks by type")]),
              ("status", .obj [("type", .str "string"),
                ("description", .str "Filter tasks by status (In Progress, To Do, etc.)")])])])],
    .obj [("name", .str "github_merge"),
          ("description", .str "Complete merge workflow with tests, cleanup, and project updates"),
          ("inputSchema", .obj [("type", .str "object"),
            ("properties", .obj [
              ("branch", .obj [("type", .str "string"),
                ("description", .str "Branch to merge (defaults to current branch)")]),
              ("delete_branch", .obj [("type", .str "boolean"),
                ("description", .str "Delete branch after merge (default: true)")]),
              ("cleanup_work_folder", .obj [("type", .str "boolean"),
                ("description", .str "Clean up work folder after merge (default: ask user)")])])])]]

/-- `handle_tools_list` (src/mcp/handlers.rs lines 110-180). -/
def handle_tools_list (request : McpRequest) : Except AppError McpResponse :=
  .ok (McpResponse.success request.id (.obj [("tools", toolsListJson)]))

/-- String extraction as `Value::get(key).and_then(Value::as_str)`. -/
def jsStr? : Option Json → Option String
  | some (.str s) => some s
  | _ => none

/-- Boolean extraction as `Value::get(key).and_then(Value::as_bool)`. -/
def jsBool? : Option Json → Option Bool
  | some (.bool b) => some b
  | _ => none

/-- Deserialization of an `Option<String>` field under serde semantics (the
tools/call path re-serializes `arguments.get(k)` into the command JSON, so a
missing field becomes null): absent or null is `none`, a string is `some`,
any other value is a deserialization error. -/
def serdeOptStr (args : Json) (k : String) : Except AppError (Option String) :=
  match args.get? k with
  | none => .ok none
  | some .null => .ok none
  | some (.str s) => .ok (some s)
  | some _ => .error (.json ("invalid type for field " ++ k))

/-- Deserialization of an `Option<bool>` field under serde semantics. -/
def serdeOptBool (args : Json) (k : String) : Except AppError (Option Bool) :=
  match args.get? k with
  | none => .ok none
  | some .null => .ok none
  | some (.bool b) => .ok (some b)
  | some _ => .error (.json ("invalid type for field " ++ k))

/-- The `tools/call` mapping of a `github_push` arguments object onto a
`GitHubCommand::Push` (src/mcp/handlers.rs lines 194-202). -/
def parsePushArgs (args : Json) : Except AppError GitHubCommand := do
  let branch ← serdeOptStr args "branch"
  let message ← serdeOptStr args "message"
  let ready_for_review ← serdeOptBool args "ready_for_review"
  return .Push branch message ready_for_review

/-- The `tools/call` mapping of a `github_scan_tasks` arguments object onto
a `GitHubCommand::ScanTasks` (src/mcp/handlers.rs lines 204-212). -/
def parseScanTasksArgs (args : Json) : Except AppError GitHubCommand := do
  let project_number ← serdeOptStr args "project_number"
  let filter_type ← serdeOptStr args "filter_type"
  let status ← serdeOptStr args "status"
  return .ScanTasks project_number filter_type status

/-- The `tools/call` mapping of a `github_merge` arguments object onto a
`GitHubCommand::Merge` (src/mcp/handlers.rs lines 214-222). -/
def parseMergeArgs (args : Json) : Except AppError GitHubCommand := do
  let branch ← serdeOptStr args "branch"
  let delete_branch ← serdeOptBool args "delete_branch"
  let cleanup_work_folder ← serdeOptBool args "cleanup_work_folder"
  return .Merge branch delete_branch cleanup_work_folder

/-- `handle_tools_call` (src/mcp/handlers.rs lines 182-235): params and tool
name are required (protocol error otherwise, propagated as `Except.error`);
an unknown tool yields an in-band METHOD_NOT_FOUND response. -/
def handle_tools_call (env : Env) (request : McpRequest) :
    Except AppError McpResponse :=
  match request.params with
  | none => .error (.mcpProtocol "Missing parameters for tools/call")
  | some params =>
    match jsStr? (params.get? "name") with
    | none => .error (.mcpProtocol "Missing tool name")
    | some tool_name =>
      if tool_name = "github_push" then
        match parsePushArgs ((params.get? "arguments").getD (.obj [])) with
        | .error e => .error e
        | .ok command =>
          match execute_workflow_command env command with
          | .error e => .error e
          | .ok result => .ok (McpResponse.success request.id result)
      else if tool_name = "github_scan_tasks" then
        match parseScanTasksArgs ((params.get? "arguments").getD (.obj [])) with
        | .error e => .error e
        | .ok command =>
          match execute_workflow_command env command with
          | .error e => .error e
          | .ok result => .ok (McpResponse.success request.id result)
      else if tool_name = "github_merge" then
        match parseMergeArgs ((params.get? "arguments").getD (.obj [])) with
        | .error e => .error e
        | .ok command =>
          match execute_workflow_command env command with
          | .error e => .error e
          | .ok result => .ok (McpResponse.success request.id result)
      else
        .ok (McpResponse.mkError request.id error_codes.METHOD_NOT_FOUND
          ("Unknown tool: " ++ tool_name) none)

/-- The static resource list of `handle_resources_list`
(src/mcp/handlers.rs lines 237-255), serialized (`mimeType` rename
applied). -/
def resourcesListJson : Json :=
  .arr [
    .obj [("uri", .str "github://workflow/status"),
          ("name", .str "Workflow Status"),
          ("description", .str "Current GitHub workflow status and active tasks"),
          ("mimeType", .str "application/json")],
    .obj [("uri", .str "github://projects/tasks"),
          ("name", .str "Project Tasks"),
          ("description", .str "GitHub Project tasks with current status"),
          ("mimeType", .str "application/json")]]

/-- `handle_resources_list` (src/mcp/handlers.rs lines 237-255). -/
def handle_resources_list (request : McpRequest) : Except AppError McpResponse :=
  .ok (McpResponse.success request.id (.obj [("resources", resourcesListJson)]))

/-- Serialization of the `Option<GitHubPullRequest>` embedded by
`get_status`; on the reduced PR struct. -/
def optPrJson : Option GitHubPullRequest → Json
  | none => .null
  | some pr => .obj [("number", .num pr.number), ("title", .str pr.title),
                     ("draft", .bool pr.draft), ("html_url", .str pr.html_url)]

/-- `get_status` from src/github/workflows.rs lines 22-41 (reached through
`get_workflow_status`): current branch and status are required, the PR probe
is best-effort. -/
def get_status (env : Env) : Except AppError Json :=
  match env.currentBranch with
  | .error e => .error e
  | .ok current_branch =>
    match env.gitStatus with
    | .error e => .error e
    | .ok git_status =>
      let pr_info : Option GitHubPullRequest :=
        match env.githubClient with
        | .ok _ => (get_pr_for_branch () current_branch).toOption
        | .error _ => none
      .ok (.obj [("current_branch", .str current_branch),
                 ("has_uncommitted_changes", .bool (!git_status.isEmpty)),
                 ("git_status", .arr (git_status.map .str)),
                 ("pull_request", optPrJson pr_info),
                 ("timestamp", .str env.now)])

/-- `get_tasks` from src/github/workflows.rs lines 43-59 (reached through
`get_project_tasks`): project-number detection, then the project items. -/
def get_tasks (env : Env) : Except AppError Json :=
  match detect_project_number env with
  | .error e => .error e
  | .ok project_number =>
    match env.githubClient with
    | .error _ => .error (.authentication "GitHub client not available")
    | .ok _ =>
      match env.projectItems project_number with
      | .error e => .error e
      | .ok tasks =>
        .ok (.obj [("project_number", .str project_number),
                   ("tasks", .arr tasks),
                   ("total_count", .num tasks.length),
                   ("timestamp", .str env.now)])

/-- The contents wrapper built by `handle_resources_read`
(src/mcp/handlers.rs lines 283-289). -/
def readContentsJson (env : Env) (uri : String) (content : Json) : Json :=
  .obj [("contents", .arr [
    .obj [("uri", .str uri),
          ("mimeType", .str "application/json"),
          ("text", .str (env.prettyPrint content))]])]

/-- `handle_resources_read` (src/mcp/handlers.rs lines 257-292): params and
uri required (protocol error otherwise); an unknown uri yields an in-band
METHOD_NOT_FOUND response. -/
def handle_resources_read (env : Env) (request : McpRequest) :
    Except AppError McpResponse :=
  match request.params with
  | none => .error (.mcpProtocol "Missing parameters for resources/read")
  | some params =>
    match jsStr? (params.get? "uri") with
    | none => .error (.mcpProtocol "Missing URI for resources/read")
    | some uri =>
      if uri = "github://workflow/status" then
        match get_status env with
        | .error e => .error e
        | .ok content =>
          .ok (McpResponse.success request.id (readContentsJson env uri content))
      else if uri = "github://projects/tasks" then
        match get_tasks env with
        | .error e => .error e
        | .ok content =>
          .ok (McpResponse.success request.id (readContentsJson env uri content))
      else
        .ok (McpResponse.mkError request.id error_codes.METHOD_NOT_FOUND
          ("Unknown resource: " ++ uri) none)

/-- The common tail of the direct workflow handlers: run the command and
wrap its value in a success response (errors propagate via `?`). -/
def workflowResponse (env : Env) (id : Option Json) (command : GitHubCommand) :
    Except AppError McpResponse :=
  match execute_workflow_command env command with
  | .error e => .error e
  | .ok result => .ok (McpResponse.success id result)

/-- `handle_github_push` (src/mcp/handlers.rs lines 294-305): the direct
method alias; fields are extracted leniently (`as_str`/`as_bool`), params
default to an empty object. -/
def handle_github_push (env : Env) (request : McpRequest) :
    Except AppError McpResponse :=
  workflowResponse env request.id
    (GitHubCommand.Push (jsStr? ((request.params.getD (.obj [])).get? "branch"))
      (jsStr? ((request.params.getD (.obj [])).get? "message"))
      (jsBool? ((request.params.getD (.obj [])).get? "ready_for_review")))

/-- `handle_github_scan_tasks` (src/mcp/handlers.rs lines 307-318). -/
def handle_github_scan_tasks (env : Env) (request : McpRequest) :
    Except AppError McpResponse :=
  workflowResponse env request.id
    (GitHubCommand.ScanTasks (jsStr? ((request.params.getD (.obj [])).get? "project_number"))
      (jsStr? ((request.params.getD (.obj [])).get? "filter_type"))
      (jsStr? ((request.params.getD (.obj [])).get? "status")))

/-- `handle_github_merge` (src/mcp/handlers.rs lines 320-331). -/
def handle_github_merge (env : Env) (request : McpRequest) :
    Except AppError McpResponse :=
  workflowResponse env request.id
    (GitHubCommand.Merge (jsStr? ((request.params.getD (.obj [])).get? "branch"))
      (jsBool? ((request.params.getD (.obj [])).get? "delete_branch"))
      (jsBool? ((request.params.getD (.obj [])).get? "cleanup_work_folder")))

/-- `handle_request` (src/mcp/handlers.rs lines 12-33): route the method
name through the fixed registry; unknown methods get an in-band
METHOD_NOT_FOUND response carrying the request id.  Handler failures
propagate as `Except.error` (the source's `?`). -/
def handle_request (env : Env) (request : McpRequest) :
    Except AppError McpResponse :=
  if request.method = methods.INIT then handle_init request
  else if request.method = methods.TOOLS_LIST then handle_tools_list request
  else if request.method = methods.TOOLS_CALL then handle_tools_call env request
  else if request.method = methods.RESOURCES_LIST then handle_resources_list request
  else if request.method = methods.RESOURCES_READ then handle_resources_read env request
  else if request.method = methods.GITHUB_PUSH then handle_github_push env request
  else if request.method = methods.GITHUB_SCAN_TASKS then handle_github_scan_tasks env request
  else if request.method = methods.GITHUB_MERGE then handle_github_merge env request
  else
    .ok (McpResponse.mkError request.id error_codes.METHOD_NOT_FOUND
      ("Method not found: " ++ request.method) none)

/-- One inbound event on the streaming transport, as seen by the receive
loop of `handle_websocket` (src/mcp/handlers.rs lines 35-95).  A text frame
carries the outcome of `serde_json::from_str::<McpRequest>` on its body
(`none` when the body does not parse); `close` is a close frame; `recvFail`
is a receive error (`Err(e)` from the socket); `otherFrame` is any other
frame kind (ping, pong, binary), which the loop ignores. -/
inductive WsEvent where
  | text (parsed : Option McpRequest)
  | close
  | recvFail
  | otherFrame

/-- The receive loop of `handle_websocket` (src/mcp/handlers.rs lines
40-94).  `sends k` is the outcome of the k-th send attempt on the socket
(the send counter `k` is threaded through).  The result is the list of
responses the loop attempted to send, each paired with whether its send
succeeded.  Per source: a successful dispatch whose send fails breaks the
loop; the parse-error and internal-error sends discard the send outcome and
continue; close frames and receive errors break the loop; other frames are
skipped. -/
def handle_websocket (env : Env) (sends : Nat → Bool) :
    Nat → List WsEvent → List (McpResponse × Bool)
  | _, [] => []
  | k, (.text parsed) :: rest =>
    match parsed with
    | some request =>
      match handle_request env request with
      | .ok response =>
        if sends k then (response, true) :: handle_websocket env sends (k + 1) rest
        else [(response, false)]
      | .error e =>
        let error_response := McpResponse.mkError none error_codes.INTERNAL_ERROR
          e.toString none
        (error_response, sends k) :: handle_websocket env sends (k + 1) rest
    | none =>
      let error_response := McpResponse.mkError none error_codes.PARSE_ERROR
        "Invalid JSON" none
      (error_response, sends k) :: handle_websocket env sends (k + 1) rest
  | _, .close :: _ => []
  | _, .recvFail :: _ => []
  | k, .otherFrame :: rest => handle_websocket env sends k rest

/-- A benign concrete environment: on branch feature/x, clean tree, every
external call succeeding, no project-number sources, empty project. -/
def envA : Env :=
  { currentBranch := .ok "feature/x"
    mainBranch := .ok "main"
    gitStatus := .ok []
    commitResult := fun _ => .ok ()
    pushResult := fun _ => .ok ()
    checkoutResult := fun _ => .ok ()
    pullResult := fun _ => .ok ()
    deleteResult := fun _ => .ok ()
    githubClient := .ok ()
    projectItems := fun _ => .ok []
    todoContent := none
    envProjectNumber := none
    prettyPrint := fun _ => ""
    now := "2025-01-01T00:00:00+00:00" }

/-- `envA` with a dirty working tree. -/
def envDirty : Env := { envA with gitStatus := .ok ["M src/main.rs"] }

/-- `envA` with the current-branch query failing, as `get_current_branch`
does when the git child process reports failure. -/
def envNoBranch : Env :=
  { envA with currentBranch := .error (.internal "Git command failed") }

/-- A concrete valid request whose method is not in the registry. -/
def reqNope : McpRequest :=
  { jsonrpc := "2.0", id := some (.num 7), method := "nope", params := none }

/-- A concrete valid `tools/call` request with no params object. -/
def reqNoParams : McpRequest :=
  { jsonrpc := "2.0", id := some (.num 1), method := "tools/call", params := none }

example : handle_request envA reqNope =
    .ok (McpResponse.mkError (some (.num 7)) (-32601) "Method not found: nope" none) := rfl

example : handle_request envA reqNoParams =
    .error (.mcpProtocol "Missing parameters for tools/call") := rfl

example : handle_websocket envA (fun _ => true) 0 [.text (some reqNoParams)] =
    [(McpResponse.mkError none (-32603)
        "MCP protocol error: Missing parameters for tools/call" none, true)] := rfl

example : execute_push_workflow envA (some "main") (some "m") none =
    (.ok (pushWarningPayload "main" "main"), []) := rfl

example : execute_push_workflow envA none none none =
    (.ok (pushNoPrPayload "feature/x"),
     [.push "feature/x", .ghGetClient, .ghGetPrForBranch "feature/x"]) := rfl

example : execute_merge_workflow envA none none none =
    (.error (.internal "PR lookup not implemented yet"),
     [.push "feature/x", .ghGetClient, .ghGetPrForBranch "feature/x"]) := rfl

example : execute_scan_tasks_workflow envA none none none =
    (.error (.validation
      "No GitHub Project number found. Please specify project_number or add it to TODO.md"),
     []) := rfl

example : detect_project_number { envA with
    todoContent := some "x\nGitHub Project: 42 here\n" } = .ok "42" := rfl

example : execute_push_workflow envNoBranch none (some "msg") none =
    (.ok (pushWarningPayload "main" "main"), []) := rfl

/-- Exactly one of `result`/`error` is present in a response. -/
def exclusiveResultError (r : McpResponse) : Bool :=
  r.result.isSome != r.error.isSome

/-- Every `Ok` value of the dispatcher carries the request's correlation id
and exactly one of result/error. -/
lemma handle_tools_call_ok_shape (env : Env) (req : McpRequest) (resp : McpResponse)
    (h : handle_tools_call env req = .ok resp) :
    resp.id = req.id ∧ exclusiveResultError resp = true := by
  unfold handle_tools_call at h
  repeat' split at h
  all_goals first
    | exact Except.noConfusion h
    | (injection h with h2; subst h2; exact ⟨rfl, rfl⟩)

lemma handle_resources_read_ok_shape (env : Env) (req : McpRequest) (resp : McpResponse)
    (h : handle_resources_read env req = .ok resp) :
    resp.id = req.id ∧ exclusiveResultError resp = true := by
  unfold handle_resources_read at h
  repeat' split at h
  all_goals first
    | exact Except.noConfusion h
    | (injection h with h2; subst h2; exact ⟨rfl, rfl⟩)

lemma workflowResponse_ok_shape (env : Env) (i : Option Json) (cmd : GitHubCommand)
    (resp : McpResponse) (h : workflowResponse env i cmd = .ok resp) :
    resp.id = i ∧ exclusiveResultError resp = true := by
  unfold workflowResponse at h
  repeat' split at h
  all_goals first
    | exact Except.noConfusion h
    | (injection h with h2; subst h2; exact ⟨rfl, rfl⟩)

/-- Shape of every dispatcher `Ok` response: the request's correlation id,
and exactly one of result/error present. -/
lemma handle_request_ok_shape (env : Env) (req : McpRequest) (resp : McpResponse)
    (h : handle_request env req = .ok resp) :
    resp.id = req.id ∧ exclusiveResultError resp = true := by
  unfold handle_request at h
  split_ifs at h
  · injection h with h2; subst h2; exact ⟨rfl, rfl⟩
  · injection h with h2; subst h2; exact ⟨rfl, rfl⟩
  · exact handle_tools_call_ok_shape env req resp h
  · injection h with h2; subst h2; exact ⟨rfl, rfl⟩
  · exact handle_resources_read_ok_shape env req resp h
  · exact workflowResponse_ok_shape env req.id _ resp h
  · exact workflowResponse_ok_shape env req.id _ resp h
  · exact workflowResponse_ok_shape env req.id _ resp h
  · injection h with h2; subst h2; exact ⟨rfl, rfl⟩

/-- Step equation of the loop: an unparsable text frame. -/
lemma ws_step_parse_fail (env : Env) (sends : Nat → Bool) (k : Nat)
    (rest : List WsEvent) :
    handle_websocket env sends k (.text none :: rest) =
      (McpResponse.mkError none error_codes.PARSE_ERROR "Invalid JSON" none,
        sends k) :: handle_websocket env sends (k + 1) rest := rfl

/-- Step equation of the loop: a parsed text frame, before the dispatch
outcome is inspected. -/
lemma ws_step_text_some (env : Env) (sends : Nat → Bool) (k : Nat)
    (req : McpRequest) (rest : List WsEvent) :
    handle_websocket env sends k (.text (some req) :: rest) =
      (match handle_request env req with
       | .ok response =>
         if sends k then
           (response, true) :: handle_websocket env sends (k + 1) rest
         else [(response, false)]
       | .error e =>
         (McpResponse.mkError none error_codes.INTERNAL_ERROR e.toString none,
           sends k) :: handle_websocket env sends (k + 1) rest) := rfl

/-- Every response the websocket loop attempts to send satisfies the
result/error exclusivity invariant. -/
lemma ws_outputs_exclusive (env : Env) (sends : Nat → Bool) :
    ∀ evs k p, p ∈ handle_websocket env sends k evs →
      exclusiveResultError p.fst = true := by
  intro evs
  induction evs with
  | nil =>
    intro k p hp
    simp [handle_websocket] at hp
  | cons ev rest ih =>
    intro k p hp
    cases ev with
    | text parsed =>
      cases parsed with
      | none =>
        rw [ws_step_parse_fail] at hp
        rcases List.mem_cons.mp hp with h | h
        · subst h; rfl
        · exact ih _ _ h
      | some req =>
        rw [ws_step_text_some] at hp
        cases hreq : handle_request env req with
        | ok resp =>
          rw [hreq] at hp
          dsimp only at hp
          cases hsk : sends k with
          | true =>
            rw [hsk, if_pos rfl] at hp
            rcases List.mem_cons.mp hp with h | h
            · subst h
              exact (handle_request_ok_shape env req resp hreq).2
            · exact ih _ _ h
          | false =>
            rw [hsk] at hp
            simp only [Bool.false_eq_true, if_false] at hp
            rcases List.mem_singleton.mp hp with h
            subst h
            exact (handle_request_ok_shape env req resp hreq).2
        | error e =>
          rw [hreq] at hp
          dsimp only at hp
          rcases List.mem_cons.mp hp with h | h
          · subst h; rfl
          · exact ih _ _ h
    | close =>
      simp [handle_websocket] at hp
    | recvFail =>
      simp [handle_websocket] at hp
    | otherFrame =>
      have hstep : handle_websocket env sends k (.otherFrame :: rest) =
        handle_websocket env sends k rest := rfl
      rw [hstep] at hp
      exact ih _ _ hp

/-- C1 (corrected: counterexample).  The claim fails on the code: a valid
request with correlation id 1 ("tools/call" with no params) dispatched over
the streaming transport causes the handler chain to fail, and the loop
replies with an internal-error response whose correlation id is null, not
the request's id. -/
theorem c1_counterexample :
    handle_websocket envA (fun _ => true) 0 [.text (some reqNoParams)] =
      [(McpResponse.mkError none (-32603)
        "MCP protocol error: Missing parameters for tools/call" none, true)]
    ∧ reqNoParams.id = some (.num 1)
    ∧ (McpResponse.mkError none (-32603)
        "MCP protocol error: Missing parameters for tools/call" none).id ≠
        reqNoParams.id := by
  refine ⟨rfl, rfl, ?_⟩
  intro h
  simp [McpResponse.mkError, reqNoParams] at h

/-- C1 (amended): whenever the dispatcher itself returns a response (every
success response and every in-band error response: unknown method, unknown
tool, unknown resource), that response carries exactly the request's
correlation id, including the null case.  (Handler failures — missing or
malformed parameters, workflow errors — escape the dispatcher as `Err`; the
streaming transport then answers those with a null correlation id.) -/
theorem c1_dispatch_ok_preserves_id (env : Env) (req : McpRequest)
    (resp : McpResponse) (h : handle_request env req = .ok resp) :
    resp.id = req.id :=
  (handle_request_ok_shape env req resp h).1

/-- Witness for C1 at a concrete input: an unknown-method request with id 7
gets a response whose id is 7. -/
theorem c1_witness :
    (McpResponse.mkError (some (.num 7)) (-32601) "Method not found: nope" none).id =
      reqNope.id :=
  c1_dispatch_ok_preserves_id envA reqNope _ rfl

/-- C2 (confirmed): every response the dispatcher can produce — any `Ok`
value of `handle_request` over any environment and request, and any response
the websocket loop attempts to send — carries exactly one of result/error,
never both. -/
theorem c2_exactly_one_of_result_error :
    (∀ env req resp, handle_request env req = .ok resp →
      exclusiveResultError resp = true)
    ∧ (∀ env sends evs k p, p ∈ handle_websocket env sends k evs →
        exclusiveResultError p.fst = true) :=
  ⟨fun env req resp h => (handle_request_ok_shape env req resp h).2,
   fun env sends evs k p hp => ws_outputs_exclusive env sends evs k p hp⟩

/-- Witness for C2 at a concrete input: the unknown-method response for
`reqNope` has exactly one of result/error. -/
theorem c2_witness :
    exclusiveResultError (McpResponse.mkError (some (.num 7)) (-32601)
      "Method not found: nope" none) = true :=
  c2_exactly_one_of_result_error.1 envA reqNope _ rfl

/-- C3 (confirmed): a request whose method is none of the eight registry
entries gets an in-band error response with code -32601 (METHOD_NOT_FOUND)
and the request's correlation id, whatever its params are. -/
theorem c3_unknown_method (env : Env) (req : McpRequest)
    (h : req.method ∉ (["initialize", "tools/list", "tools/call",
      "resources/list", "resources/read", "github/push", "github/scan-tasks",
      "github/merge"] : List String)) :
    handle_request env req =
      .ok (McpResponse.mkError req.id (-32601)
        ("Method not found: " ++ req.method) none) := by
  simp only [List.mem_cons, List.not_mem_nil, or_false, not_or] at h
  obtain ⟨h1, h2, h3, h4, h5, h6, h7, h8⟩ := h
  unfold handle_request methods.INIT methods.TOOLS_LIST methods.TOOLS_CALL
    methods.RESOURCES_LIST methods.RESOURCES_READ methods.GITHUB_PUSH
    methods.GITHUB_SCAN_TASKS methods.GITHUB_MERGE
  rw [if_neg h1, if_neg h2, if_neg h3, if_neg h4, if_neg h5, if_neg h6,
    if_neg h7, if_neg h8]
  rfl

/-- Witness for C3 at a concrete input: the method "nope" with params
absent. -/
theorem c3_witness :
    handle_request envA reqNope =
      .ok (McpResponse.mkError (some (.num 7)) (-32601)
        "Method not found: nope" none) :=
  c3_unknown_method envA reqNope (by decide)

/-- C4 (confirmed): when the resolved branch equals the resolved main-branch
name, Push returns the warning payload (status=warning with
requires_confirmation) and invokes no external operation at all — in
particular neither commit_changes nor push_branch — even when a commit
message was supplied. -/
theorem c4_push_on_main_no_mutation (env : Env) (branch message : Option String)
    (ready_for_review : Option Bool)
    (h : resolve_branch env branch = resolve_main env) :
    execute_push_workflow env branch message ready_for_review =
      (.ok (pushWarningPayload (resolve_main env) (resolve_branch env branch)),
       []) := by
  unfold execute_push_workflow push_after_resolve
  rw [if_pos h]

/-- Witness for C4 at a concrete input: pushing branch "main" with a commit
message supplied yields the warning payload and an empty operation trace. -/
theorem c4_witness :
    execute_push_workflow envA (some "main") (some "fix bug") (some true) =
      (.ok (pushWarningPayload "main" "main"), []) :=
  c4_push_on_main_no_mutation envA (some "main") (some "fix bug") (some true) rfl

/-- C5 (confirmed): on a non-main branch with a commit message supplied, the
commit runs first; the status is then queried, and when it is still
non-empty the workflow returns the status=error payload with push_branch
never invoked (the trace holds exactly the commit). -/
theorem c5_push_dirty_aborts_before_push (env : Env) (branch : Option String)
    (m : String) (ready_for_review : Option Bool) (st : List String)
    (hb : resolve_branch env branch ≠ resolve_main env)
    (hc : env.commitResult m = .ok ())
    (hs : env.gitStatus = .ok st) (hne : st ≠ []) :
    execute_push_workflow env branch (some m) ready_for_review =
      (.ok (pushDirtyPayload st), [GitOp.commit m]) := by
  unfold execute_push_workflow push_after_resolve
  rw [if_neg hb]
  simp only [hc, hs, hne]
  rw [if_pos hne]

/-- Witness for C5 at a concrete input: a dirty tree surviving the commit on
branch feature/x. -/
theorem c5_witness :
    execute_push_workflow envDirty (some "feature/x") (some "fix bug") none =
      (.ok (pushDirtyPayload ["M src/main.rs"]), [GitOp.commit "fix bug"]) :=
  c5_push_dirty_aborts_before_push envDirty (some "feature/x") "fix bug" none
    ["M src/main.rs"] (by decide) rfl rfl (by decide)

/-- C6 (confirmed): when the resolved branch equals the resolved main-branch
name, Merge returns the validation error and invokes no external operation:
commit, push, checkout, pull and branch deletion all absent (empty trace). -/
theorem c6_merge_on_main_no_mutation (env : Env) (branch : Option String)
    (delete_branch cleanup_work_folder : Option Bool)
    (h : resolve_branch env branch = resolve_main env) :
    execute_merge_workflow env branch delete_branch cleanup_work_folder =
      (.error (.validation "Already on main branch. Switch to feature branch first."),
       []) := by
  unfold execute_merge_workflow merge_after_resolve
  rw [if_pos h]

/-- Witness for C6 at a concrete input: merging branch "main". -/
theorem c6_witness :
    execute_merge_workflow envA (some "main") (some true) (some true) =
      (.error (.validation "Already on main branch. Switch to feature branch first."),
       []) :=
  c6_merge_on_main_no_mutation envA (some "main") (some true) (some true) rfl

/-- An environment whose tracking document carries a project-number marker
line. -/
def envTodo : Env :=
  { envA with todoContent := some "# TODO\nGitHub Project: 42 tasks\n",
              envProjectNumber := some "99" }

/-- An environment with only the environment-variable fallback set. -/
def envVarOnly : Env := { envA with envProjectNumber := some "7" }

/-- C7 (confirmed): ScanTasks resolves the project identifier preferring the
explicit argument, then the tracking-document marker, then the environment
fallback; when all three are absent it returns the terminal validation error
with no GitHub call attempted (empty operation trace). -/
theorem c7_scan_tasks_project_resolution :
    (∀ env ft st n items, env.githubClient = .ok () →
      env.projectItems n = .ok items →
      execute_scan_tasks_workflow env (some n) ft st =
        (.ok (scanTasksPayload n items),
         [.ghGetClient, .ghGetProjectItems n]))
    ∧ (∀ env ft st m items, todoProjectNumber env = some m →
        env.githubClient = .ok () → env.projectItems m = .ok items →
        execute_scan_tasks_workflow env none ft st =
          (.ok (scanTasksPayload m items),
           [.ghGetClient, .ghGetProjectItems m]))
    ∧ (∀ env ft st p items, todoProjectNumber env = none →
        env.envProjectNumber = some p →
        env.githubClient = .ok () → env.projectItems p = .ok items →
        execute_scan_tasks_workflow env none ft st =
          (.ok (scanTasksPayload p items),
           [.ghGetClient, .ghGetProjectItems p]))
    ∧ (∀ env ft st, todoProjectNumber env = none →
        env.envProjectNumber = none →
        execute_scan_tasks_workflow env none ft st =
          (.error (.validation
            "No GitHub Project number found. Please specify project_number or add it to TODO.md"),
           [])) := by
  refine ⟨?_, ?_, ?_, ?_⟩
  · intro env ft st n items hgh hitems
    unfold execute_scan_tasks_workflow
    simp only [hgh, hitems]
  · intro env ft st m items htodo hgh hitems
    unfold execute_scan_tasks_workflow detect_project_number
    simp only [htodo, hgh, hitems]
  · intro env ft st p items htodo henv hgh hitems
    unfold execute_scan_tasks_workflow detect_project_number
    simp only [htodo, henv, hgh, hitems]
  · intro env ft st htodo henv
    unfold execute_scan_tasks_workflow detect_project_number
    simp only [htodo, henv]

/-- Witness for C7 at concrete inputs: the terminal validation error with no
sources set, and the tracking-document path winning over the environment
fallback. -/
theorem c7_witness :
    execute_scan_tasks_workflow envA none none none =
      (.error (.validation
        "No GitHub Project number found. Please specify project_number or add it to TODO.md"),
       [])
    ∧ execute_scan_tasks_workflow envTodo none none none =
        (.ok (scanTasksPayload "42" []),
         [.ghGetClient, .ghGetProjectItems "42"]) :=
  ⟨c7_scan_tasks_project_resolution.2.2.2 envA none none rfl rfl,
   c7_scan_tasks_project_resolution.2.1 envTodo none none "42" [] rfl rfl rfl⟩

/-- C8 (corrected: counterexample).  The claim's third clause — "any failure
to send a response causes the loop to terminate" — fails on the code: with
every send failing, a transcript holding an unparsable frame followed by a
valid one produces two attempted sends (the parse-error send's failure is
discarded with `let _ =` and the loop continues), so a non-final send
failed. -/
theorem c8_counterexample :
    ((handle_websocket envA (fun _ => false) 0
        [.text none, .text (some reqNope)]).map Prod.snd).dropLast.all
      (fun b => b) = false
    ∧ (handle_websocket envA (fun _ => false) 0
        [.text none, .text (some reqNope)]).length = 2 :=
  ⟨rfl, rfl⟩

/-- C8 (amended): on the streaming transport, an unparsable message body
produces a PARSE_ERROR (-32700) response with a null correlation id and the
loop continues whatever the send outcome; a close frame terminates the loop;
and a failed send of a successfully dispatched response terminates the loop
without retrying (failed sends of error responses are discarded and the loop
continues). -/
theorem c8_streaming_loop (env : Env) (sends : Nat → Bool) (k : Nat)
    (rest : List WsEvent) (req : McpRequest) (resp : McpResponse)
    (hreq : handle_request env req = .ok resp) (hsend : sends k = false) :
    handle_websocket env sends k (.text none :: rest) =
      (McpResponse.mkError none (-32700) "Invalid JSON" none, sends k) ::
        handle_websocket env sends (k + 1) rest
    ∧ handle_websocket env sends k (.close :: rest) = []
    ∧ handle_websocket env sends k (.text (some req) :: rest) =
        [(resp, false)] := by
  refine ⟨rfl, rfl, ?_⟩
  rw [ws_step_text_some, hreq]
  dsimp only
  rw [hsend]
  simp only [Bool.false_eq_true, if_false]

/-- Witness for C8 at concrete inputs. -/
theorem c8_witness :
    handle_websocket envA (fun _ => false) 0 [.text none, .text none] =
      (McpResponse.mkError none (-32700) "Invalid JSON" none, false) ::
        handle_websocket envA (fun _ => false) 1 [.text none]
    ∧ handle_websocket envA (fun _ => false) 0 [.close, .text none] = []
    ∧ handle_websocket envA (fun _ => false) 0
        [.text (some reqNope), .text none] =
        [(McpResponse.mkError (some (.num 7)) (-32601)
          "Method not found: nope" none, false)] :=
  c8_streaming_loop envA (fun _ => false) 0 [.text none] reqNope _ rfl rfl

/-- C9 (corrected: counterexample).  The claim's abort clause fails on the
code: with the current-branch query failing and no explicit branch argument,
Push does not abort with a reported resolution error — it silently
substitutes "main" for the current branch (workflows.rs line 70) and
returns the on-main warning payload as a success value. -/
theorem c9_counterexample :
    envNoBranch.currentBranch = .error (.internal "Git command failed")
    ∧ (execute_push_workflow envNoBranch none (some "msg") none).fst =
        .ok (pushWarningPayload "main" "main") :=
  ⟨rfl, rfl⟩

/-- C9 (amended): absent optional fields are resolved before any external
call — a ScanTasks project-number resolution failure is a terminal
validation error with no GitHub call attempted — but a failure to determine
the current branch in Push or Merge is silently defaulted to the literal
"main" (exactly as the documented main-branch-name default), not reported. -/
theorem c9_resolution_defaults (env : Env) (ft st m : Option String)
    (r d c : Option Bool) (e e' : AppError)
    (hdetect : detect_project_number env = .error e)
    (hbranch : env.currentBranch = .error e') :
    execute_scan_tasks_workflow env none ft st = (.error e, [])
    ∧ execute_push_workflow env none m r =
        execute_push_workflow env (some "main") m r
    ∧ execute_merge_workflow env none d c =
        execute_merge_workflow env (some "main") d c := by
  refine ⟨?_, ?_, ?_⟩
  · unfold execute_scan_tasks_workflow
    simp only [hdetect]
  · unfold execute_push_workflow resolve_branch
    simp only [Option.getD, exceptGetD, hbranch]
  · unfold execute_merge_workflow resolve_branch
    simp only [Option.getD, exceptGetD, hbranch]

/-- Witness for C9 at a concrete input: an environment with a failed
current-branch query and no project-number sources. -/
theorem c9_witness :
    execute_scan_tasks_workflow envNoBranch none none none =
      (.error (.validation
        "No GitHub Project number found. Please specify project_number or add it to TODO.md"),
       [])
    ∧ execute_push_workflow envNoBranch none none none =
        execute_push_workflow envNoBranch (some "main") none none
    ∧ execute_merge_workflow envNoBranch none none none =
        execute_merge_workflow envNoBranch (some "main") none none :=
  c9_resolution_defaults envNoBranch none none none none none none _
    (.internal "Git command failed") rfl rfl

/-- The trace contribution of Push's optional commit step. -/
def commitTraceOf : Option String → List GitOp
  | some m => [.commit m]
  | none => []

/-- C10 (confirmed): the PR lookup by branch fails unconditionally; hence
every Push that reaches the lookup returns the no-PR success payload (branch
plus suggestion, no pull_request object, the ready_for_review flag without
effect), and every Merge that reaches the lookup returns that error with
checkout, pull and branch deletion never invoked (the trace stops at the
lookup). -/
theorem c10_pr_lookup_always_fails :
    (∀ b, get_pr_for_branch () b =
      .error (.internal "PR lookup not implemented yet"))
    ∧ (∀ env b m r, resolve_branch env b ≠ resolve_main env →
        (∀ msg, m = some msg → env.commitResult msg = .ok ()) →
        env.gitStatus = .ok [] →
        env.pushResult (resolve_branch env b) = .ok () →
        env.githubClient = .ok () →
        execute_push_workflow env b m r =
          (.ok (pushNoPrPayload (resolve_branch env b)),
           commitTraceOf m ++ [.push (resolve_branch env b), .ghGetClient,
             .ghGetPrForBranch (resolve_branch env b)]))
    ∧ (∀ env b d c st, resolve_branch env b ≠ resolve_main env →
        env.gitStatus = .ok st →
        (st ≠ [] →
          env.commitResult ("Final changes for " ++ resolve_branch env b) = .ok ()) →
        env.pushResult (resolve_branch env b) = .ok () →
        env.githubClient = .ok () →
        execute_merge_workflow env b d c =
          (.error (.internal "PR lookup not implemented yet"),
           (if st = [] then []
            else [GitOp.commit ("Final changes for " ++ resolve_branch env b)])
             ++ [.push (resolve_branch env b), .ghGetClient,
               .ghGetPrForBranch (resolve_branch env b)])) := by
  refine ⟨fun b => rfl, ?_, ?_⟩
  · intro env b m r hb hc hs hp hg
    unfold execute_push_workflow push_after_resolve
    rw [if_neg hb]
    cases m with
    | none => simp [hs, hp, hg, get_pr_for_branch, commitTraceOf]
    | some msg => simp [hc msg rfl, hs, hp, hg, get_pr_for_branch, commitTraceOf]
  · intro env b d c st hb hs hcommit hp hg
    unfold execute_merge_workflow merge_after_resolve
    rw [if_neg hb]
    by_cases hst : st = []
    · subst hst
      simp [hs, hp, hg, get_pr_for_branch]
    · simp [hs, hcommit hst, hst, hp, hg, get_pr_for_branch]

/-- Witness for C10 at a concrete input: feature/x with a clean tree, all
git calls succeeding. -/
theorem c10_witness :
    get_pr_for_branch () "feature/x" =
      .error (.internal "PR lookup not implemented yet")
    ∧ execute_push_workflow envA (some "feature/x") none (some true) =
        (.ok (pushNoPrPayload "feature/x"),
         [.push "feature/x", .ghGetClient, .ghGetPrForBranch "feature/x"])
    ∧ execute_merge_workflow envA (some "feature/x") none none =
        (.error (.internal "PR lookup not implemented yet"),
         [.push "feature/x", .ghGetClient, .ghGetPrForBranch "feature/x"]) :=
  ⟨c10_pr_lookup_always_fails.1 "feature/x",
   c10_pr_lookup_always_fails.2.1 envA (some "feature/x") none (some true)
     (by decide) (fun msg h => Option.noConfusion h) rfl rfl rfl,
   c10_pr_lookup_always_fails.2.2 envA (some "feature/x") none none []
     (by decide) rfl (fun h => absurd rfl h) rfl rfl⟩
